import Mathlib

/-!
Shallow embedding of `src/libedgedns/src/hooks.rs` (the edgedns hooks
framework): module discovery and loading, the service registry, and the
hook invocation protocol (`apply_clientside` / `apply_serverside`).

Modelling conventions:
- Byte vectors (`Vec<u8>`) are `List Nat`.
- A Rust panic (`expect` / `unwrap`) is modelled as `none` in an `Option`
  wrapper around the result; a `Result<T, &str>` is `Except String T`.
- The external crates are parameters of the model: `dnssector`
  (`DNSSector::new`, `parse`, `into_packet`) becomes a `PacketIface`
  record over abstract types `D` (the `DNSSector` value) and `P`
  (the `ParsedPacket` value); `libloading` (`Library::new` plus symbol
  resolution, which the code performs right after loading) becomes a
  function `loadLib : String → Option (ServiceHooks P)` where `none`
  is a load failure; the `glob` crate becomes a function from the glob
  expression to the list of its results.
- A foreign hook symbol `fn(*const FnTable, *mut ParsedPacket) -> c_int`
  is modelled as `P → Int × P`: it may mutate the packet in place and
  returns an integer status.  The `FnTable` argument is a process-wide
  constant accessor table and carries no information, so it is dropped.
- The `qp_trie::Trie<Vec<u8>, Service>` is used only through exact-match
  `get` and `insert`, so it is modelled as an association list with
  exact-match lookup and key-replacing insert.
-/

set_option autoImplicit false

namespace EdgeDNS

/-- The constant `MASTER_SERVICE_LIBRARY_NAME` from hooks.rs. -/
def MASTER_SERVICE_LIBRARY_NAME : String := "master"

/-- The constant `DLL_EXT` from hooks.rs. -/
def DLL_EXT : String := "dylib"

/-- The unit struct `SessionState` from hooks.rs. -/
structure SessionState where
deriving DecidableEq, Repr

/-- The enum `Action` from hooks.rs (`Pass = 1`, `Lookup`, `Drop`). -/
inductive Action where
  | Pass
  | Lookup
  | Drop
deriving DecidableEq, Repr

/-- The discriminant cast `impl From<Action> for c_int` (`v as c_int`):
`Pass = 1`, `Lookup = 2`, `Drop = 3`. -/
def Action.toCInt : Action → Int
  | Action.Pass => 1
  | Action.Lookup => 2
  | Action.Drop => 3

/-- The conversion `impl From<c_int> for Action`: the match guards compare
the incoming id with `Action::Pass.into()` and `Action::Lookup.into()`, and
every other value falls through to `Drop`. -/
def Action.ofCInt (id : Int) : Action :=
  if id = Action.toCInt Action.Pass then Action.Pass
  else if id = Action.toCInt Action.Lookup then Action.Lookup
  else Action.Drop

/-- The enum `Stage` from hooks.rs. -/
inductive Stage where
  | Recv
  | Deliver
deriving DecidableEq, Repr

/-- The struct `ServiceHooks` from hooks.rs: the owned library handle plus
the two optional resolved entry points.  The `library : Arc<Library>` field
carries no observable behaviour in the model and is omitted; a hook entry
point `fn(*const FnTable, *mut ParsedPacket) -> c_int` is `P → Int × P`. -/
structure ServiceHooks (P : Type) where
  hook_recv : Option (P → Int × P)
  hook_deliver : Option (P → Int × P)

/-- The struct `Service` from hooks.rs. -/
structure Service (P : Type) where
  service_hooks : Option (ServiceHooks P)

/-- Exact-match lookup in the registry, modelling `Trie::get`. -/
def trieGet {α : Type} (t : List (List Nat × α)) (k : List Nat) : Option α :=
  match t with
  | [] => none
  | (k2, v) :: rest => if k2 = k then some v else trieGet rest k

/-- Key-replacing insert in the registry, modelling `Trie::insert`. -/
def trieInsert {α : Type} (t : List (List Nat × α)) (k : List Nat) (v : α) :
    List (List Nat × α) :=
  match t with
  | [] => [(k, v)]
  | (k2, v2) :: rest =>
    if k2 = k then (k, v) :: rest else (k2, v2) :: trieInsert rest k v

/-- The struct `Hooks` from hooks.rs. -/
structure Hooks (P : Type) where
  services : List (List Nat × Service P)
  master_service_id : List Nat
  libraries_path : Option String

/-- The UTF-8 encoding of a single character (Rust strings are UTF-8, so
`str::as_bytes` is the concatenation of these). -/
def utf8Bytes (c : Char) : List Nat :=
  let n := c.toNat
  if n < 0x80 then [n]
  else if n < 0x800 then
    [0xC0 ||| (n >>> 6), 0x80 ||| (n &&& 0x3F)]
  else if n < 0x10000 then
    [0xE0 ||| (n >>> 12), 0x80 ||| ((n >>> 6) &&& 0x3F), 0x80 ||| (n &&& 0x3F)]
  else
    [0xF0 ||| (n >>> 18), 0x80 ||| ((n >>> 12) &&& 0x3F),
     0x80 ||| ((n >>> 6) &&& 0x3F), 0x80 ||| (n &&& 0x3F)]

/-- The UTF-8 bytes of a string, modelling `str::as_bytes`. -/
def strBytes (s : String) : List Nat :=
  s.data.flatMap utf8Bytes

/-- A `&OsStr` value (a file-name stem): `to_str` is `OsStr::to_str`,
`none` when the platform string is not valid Unicode. -/
structure OsStr where
  to_str : Option String
deriving DecidableEq, Repr

/-- A `PathBuf` as used by `load_library`: its optional stem
(`Path::file_stem`) and its optional Unicode path text (`Path::to_str`). -/
structure LibPath where
  file_stem : Option OsStr
  to_str : Option String
deriving DecidableEq, Repr

/-- The comparison `stem == MASTER_SERVICE_LIBRARY_NAME` (an `OsStr`
compared with a `&str`): on every platform it holds exactly when the stem
decodes to that string, since `"master"` is valid Unicode. -/
def OsStr.isMaster (o : OsStr) : Prop :=
  o.to_str = some MASTER_SERVICE_LIBRARY_NAME

instance (o : OsStr) : Decidable o.isMaster := by
  unfold OsStr.isMaster; infer_instance

/-- The function `Service::new` from hooks.rs.  `loadLib` models
`Library::new` together with the two `get` symbol resolutions that follow
it: `none` is a library-load failure (the symbol resolutions themselves
never fail, each hook being optional). -/
def Service.new {P : Type} (loadLib : String → Option (ServiceHooks P))
    (library_path : Option String) : Except String (Service P) :=
  match library_path with
  | none => Except.ok { service_hooks := none }
  | some library_path =>
    match loadLib library_path with
    | none => Except.error "Unable to load the dynamic library"
    | some service_hooks => Except.ok { service_hooks := some service_hooks }

/-- The method `Hooks::load_library` from hooks.rs.  All error returns in
the source happen before the single `services.insert`, so an error leaves
the registry unchanged; the updated `Hooks` value is returned on `Ok`. -/
def Hooks.load_library {P : Type} (loadLib : String → Option (ServiceHooks P))
    (h : Hooks P) (library_path : LibPath) : Except String (Hooks P) :=
  match library_path.file_stem with
  | none => Except.error "Missing stem from file name"
  | some stem =>
    let service_id? : Except String (List Nat) :=
      if stem.isMaster then Except.ok h.master_service_id
      else
        match stem.to_str with
        | none => Except.error "Unsupported path name"
        | some s => Except.ok (strBytes s)
    match service_id? with
    | Except.error e => Except.error e
    | Except.ok service_id =>
      if stem.isMaster then
        match library_path.to_str with
        | none => Except.error "Unsupported path name"
        | some path_str =>
          match Service.new loadLib (some path_str) with
          | Except.error _ => Except.error "Unable to register the service"
          | Except.ok service =>
            Except.ok { h with services := trieInsert h.services service_id service }
      else Except.ok h

/-- The `for` loop of `Hooks::load_libraries`: each glob item that is an
`Err` is skipped (`continue`), and a `load_library` error is logged and
the loop continues with the registry unchanged. -/
def load_loop {P : Type} (loadLib : String → Option (ServiceHooks P))
    (h : Hooks P) (paths : List (Except Unit LibPath)) : Hooks P :=
  match paths with
  | [] => h
  | p :: rest =>
    match p with
    | Except.error _ => load_loop loadLib h rest
    | Except.ok library_path =>
      match h.load_library loadLib library_path with
      | Except.ok h2 => load_loop loadLib h2 rest
      | Except.error _ => load_loop loadLib h rest

/-- The method `Hooks::load_libraries` from hooks.rs: with no configured
`libraries_path` it returns at once; otherwise it globs
`<path>/*.<DLL_EXT>` (the glob modelled by `globFn`) and folds
`load_library` over the results. -/
def Hooks.load_libraries {P : Type} (loadLib : String → Option (ServiceHooks P))
    (globFn : String → List (Except Unit LibPath)) (h : Hooks P) : Hooks P :=
  match h.libraries_path with
  | none => h
  | some libraries_path =>
    let path_expr := libraries_path ++ "/*." ++ DLL_EXT
    load_loop loadLib h (globFn path_expr)

/-- The constructor `Hooks::new` from hooks.rs: empty registry, master
service id fixed to the empty byte vector, then `load_libraries`. -/
def Hooks.new {P : Type} (loadLib : String → Option (ServiceHooks P))
    (globFn : String → List (Except Unit LibPath))
    (libraries_path : Option String) : Hooks P :=
  let hooks : Hooks P :=
    { services := []
      master_service_id := []
      libraries_path := libraries_path }
  hooks.load_libraries loadLib globFn

/-- The method `Hooks::enabled` from hooks.rs.  The source calls
`.expect("Nonexistent service")` on the registry lookup, so a registry
with no master entry aborts the process: that abort is modelled as
`none`. -/
def Hooks.enabled {P : Type} (h : Hooks P) (_stage : Stage) : Option Bool :=
  match trieGet h.services h.master_service_id with
  | none => none
  | some service => some service.service_hooks.isSome

/-- The external packet interface (crate `dnssector`): `dsNew` is
`DNSSector::new`, `dsParse` is `DNSSector::parse`, `intoPacket` is
`ParsedPacket::into_packet`. -/
structure PacketIface (D P : Type) where
  dsNew : List Nat → Except String D
  dsParse : D → Except String P
  intoPacket : P → List Nat

/-- The method `Hooks::apply_clientside` from hooks.rs.  The outer
`Option` models the aborts: the `expect` inside `enabled`, the
`expect("Nonexistent master service")` on the second lookup, and the two
`unwrap`s on `service_hooks` and on the per-stage hook. -/
def Hooks.apply_clientside {D P : Type} (h : Hooks P)
    (iface : PacketIface D P) (_session_state : SessionState)
    (packet : List Nat) (stage : Stage) :
    Option (Except String (Action × List Nat)) :=
  match h.enabled stage with
  | none => none
  | some false => some (Except.ok (Action.Pass, packet))
  | some true =>
    match iface.dsNew packet with
    | Except.error _ => some (Except.error "Cannot parse packet")
    | Except.ok ds =>
      match iface.dsParse ds with
      | Except.error _ => some (Except.error "Invalid packet")
      | Except.ok parsed_packet =>
        match trieGet h.services h.master_service_id with
        | none => none
        | some service =>
          match service.service_hooks with
          | none => none
          | some service_hooks =>
            match (match stage with
                   | Stage.Recv => service_hooks.hook_recv
                   | Stage.Deliver => service_hooks.hook_deliver) with
            | none => none
            | some hook =>
              let r := hook parsed_packet
              let action := Action.ofCInt r.1
              some (Except.ok (action, iface.intoPacket r.2))

/-- The method `Hooks::apply_serverside` from hooks.rs: same body as
`apply_clientside` but with no session-state parameter. -/
def Hooks.apply_serverside {D P : Type} (h : Hooks P)
    (iface : PacketIface D P) (packet : List Nat) (stage : Stage) :
    Option (Except String (Action × List Nat)) :=
  match h.enabled stage with
  | none => none
  | some false => some (Except.ok (Action.Pass, packet))
  | some true =>
    match iface.dsNew packet with
    | Except.error _ => some (Except.error "Cannot parse packet")
    | Except.ok ds =>
      match iface.dsParse ds with
      | Except.error _ => some (Except.error "Invalid packet")
      | Except.ok parsed_packet =>
        match trieGet h.services h.master_service_id with
        | none => none
        | some service =>
          match service.service_hooks with
          | none => none
          | some service_hooks =>
            match (match stage with
                   | Stage.Recv => service_hooks.hook_recv
                   | Stage.Deliver => service_hooks.hook_deliver) with
            | none => none
            | some hook =>
              let r := hook parsed_packet
              let action := Action.ofCInt r.1
              some (Except.ok (action, iface.intoPacket r.2))

/-- The combined parse pipeline of the two `apply_*` bodies, used to state
parse-failure claims: `DNSSector::new` then `parse`, with the error
strings the source substitutes for the underlying errors. -/
def parseOutcome {D P : Type} (iface : PacketIface D P)
    (packet : List Nat) : Except String P :=
  match iface.dsNew packet with
  | Except.error _ => Except.error "Cannot parse packet"
  | Except.ok ds =>
    match iface.dsParse ds with
    | Except.error _ => Except.error "Invalid packet"
    | Except.ok parsed_packet => Except.ok parsed_packet

/-- Concrete fixture: a `ServiceHooks` value with only a receive hook
resolved (the deliver symbol was absent from the module). -/
def recvOnlyHooks : ServiceHooks (List Nat) :=
  { hook_recv := some (fun p => (1, p)), hook_deliver := none }

/-- Concrete fixture: a library loader that always succeeds and resolves
only the receive hook. -/
def recvOnlyLoad : String → Option (ServiceHooks (List Nat)) :=
  fun _ => some recvOnlyHooks

/-- Concrete fixture: a glob result holding a single file named
`master.dylib`. -/
def masterGlob : String → List (Except Unit LibPath) :=
  fun _ => [Except.ok { file_stem := some { to_str := some "master" },
                        to_str := some "/modules/master.dylib" }]

/-- Concrete fixture: a packet interface whose parser accepts every
buffer and whose serializer returns the parsed bytes unchanged. -/
def idIface : PacketIface (List Nat) (List Nat) :=
  { dsNew := fun b => Except.ok b
    dsParse := fun b => Except.ok b
    intoPacket := fun b => b }

/-- Concrete fixture: a packet interface whose `DNSSector::new` step
rejects every buffer. -/
def failIface : PacketIface (List Nat) (List Nat) :=
  { dsNew := fun _ => Except.error "odd packet length"
    dsParse := fun b => Except.ok b
    intoPacket := fun b => b }

/-- Concrete fixture: a registry holding a master entry with no loaded
hooks (`service_hooks = None`), on which `enabled` returns `false`. -/
def noHooksMaster : Hooks (List Nat) :=
  { services := [([], { service_hooks := none })]
    master_service_id := []
    libraries_path := none }

/-- Concrete fixture: a `Hooks` value with an empty registry and the
empty master id, as built by `Hooks::new` before `load_libraries`. -/
def emptyHooks : Hooks (List Nat) :=
  { services := [], master_service_id := [], libraries_path := none }

/-- Concrete fixture: the path of a discovered file named `master.dylib`. -/
def masterPath : LibPath :=
  { file_stem := some { to_str := some "master" }
    to_str := some "/modules/master.dylib" }

/-- The construction invariant of the registry: the master id is the
empty byte vector, and the registry is either empty or holds exactly one
entry, keyed by the empty byte vector, whose hooks are loaded. -/
def RegistryShape {P : Type} (h : Hooks P) : Prop :=
  h.master_service_id = [] ∧
  (h.services = [] ∨
    ∃ srv, h.services = [([], srv)] ∧ srv.service_hooks.isSome = true)

/-- Looking up the key just inserted returns the inserted value. -/
theorem trieGet_insert_self {α : Type} (t : List (List Nat × α))
    (k : List Nat) (v : α) : trieGet (trieInsert t k v) k = some v := by
  induction t with
  | nil =>
    unfold trieInsert trieGet
    rw [if_pos rfl]
  | cons kv rest ih =>
    rcases kv with ⟨k2, v2⟩
    unfold trieInsert
    by_cases hk : k2 = k
    · rw [if_pos hk]
      unfold trieGet
      rw [if_pos rfl]
    · rw [if_neg hk]
      unfold trieGet
      rw [if_neg hk]
      exact ih

/-- A successful `Service::new` on a `Some` path always carries loaded
hooks: the placeholder (`service_hooks = None`) arises only from a `None`
path, and a load failure is an error, not a placeholder. -/
theorem service_new_some_loaded {P : Type}
    (loadLib : String → Option (ServiceHooks P)) (path_str : String)
    (srv : Service P)
    (hok : Service.new loadLib (some path_str) = Except.ok srv) :
    srv.service_hooks.isSome = true := by
  unfold Service.new at hok
  cases hl : loadLib path_str with
  | none => simp [hl] at hok
  | some sh =>
    simp only [hl, Except.ok.injEq] at hok
    rw [← hok]
    rfl

/-- `load_library` preserves the registry construction invariant. -/
theorem load_library_shape {P : Type}
    (loadLib : String → Option (ServiceHooks P)) (h h2 : Hooks P)
    (lp : LibPath) (hs : RegistryShape h)
    (hok : h.load_library loadLib lp = Except.ok h2) : RegistryShape h2 := by
  unfold Hooks.load_library at hok
  cases hstem : lp.file_stem with
  | none => simp [hstem] at hok
  | some stem =>
    by_cases hm : stem.isMaster
    · cases hpath : lp.to_str with
      | none => simp [hstem, if_pos hm, hpath] at hok
      | some path_str =>
        cases hsn : Service.new loadLib (some path_str) with
        | error e => simp [hstem, if_pos hm, hpath, hsn] at hok
        | ok service =>
          simp only [hstem, if_pos hm, hpath, hsn, Except.ok.injEq] at hok
          have hmid : h.master_service_id = [] := hs.1
          have hloaded : service.service_hooks.isSome = true :=
            service_new_some_loaded loadLib path_str service hsn
          rw [← hok]
          refine ⟨hmid, Or.inr ⟨service, ?_, hloaded⟩⟩
          rcases hs.2 with hservices | ⟨srv0, hservices, _⟩
          · rw [show ({ h with
                services := trieInsert h.services h.master_service_id service } :
                Hooks P).services =
                trieInsert h.services h.master_service_id service from rfl,
              hservices, hmid]
            rfl
          · rw [show ({ h with
                services := trieInsert h.services h.master_service_id service } :
                Hooks P).services =
                trieInsert h.services h.master_service_id service from rfl,
              hservices, hmid]
            rfl
    · cases hts : stem.to_str with
      | none => simp [hstem, if_neg hm, hts] at hok
      | some s =>
        simp only [hstem, if_neg hm, hts, Except.ok.injEq] at hok
        rw [← hok]
        exact hs

/-- The loop of `load_libraries` preserves the registry construction
invariant. -/
theorem load_loop_shape {P : Type}
    (loadLib : String → Option (ServiceHooks P))
    (paths : List (Except Unit LibPath)) (h : Hooks P)
    (hs : RegistryShape h) : RegistryShape (load_loop loadLib h paths) := by
  induction paths generalizing h with
  | nil => exact hs
  | cons p rest ih =>
    cases p with
    | error e => exact ih h hs
    | ok lp =>
      cases hlr : h.load_library loadLib lp with
      | error e =>
        simp only [load_loop, hlr]
        exact ih h hs
      | ok h2 =>
        simp only [load_loop, hlr]
        exact ih h2 (load_library_shape loadLib h h2 lp hs hlr)

/-- Every `Hooks` value built by `Hooks::new` satisfies the registry
construction invariant. -/
theorem registryShape_new {P : Type}
    (loadLib : String → Option (ServiceHooks P))
    (globFn : String → List (Except Unit LibPath)) (p : Option String) :
    RegistryShape (Hooks.new (P := P) loadLib globFn p) := by
  unfold Hooks.new Hooks.load_libraries
  cases p with
  | none => exact ⟨rfl, Or.inl rfl⟩
  | some s => exact load_loop_shape loadLib _ _ ⟨rfl, Or.inl rfl⟩

/-- The two apply bodies are the same function of the packet, the stage
and the registry; the session-state parameter is unused. -/
theorem apply_sides_eq {D P : Type} (h : Hooks P)
    (iface : PacketIface D P) (session_state : SessionState)
    (packet : List Nat) (stage : Stage) :
    h.apply_clientside iface session_state packet stage =
      h.apply_serverside iface packet stage := rfl

/-- When `enabled` returns `some true` and the parse pipeline fails, the
client-side apply returns exactly the pipeline's error. -/
theorem apply_clientside_parse_error {D P : Type} (h : Hooks P)
    (iface : PacketIface D P) (session_state : SessionState)
    (packet : List Nat) (stage : Stage) (msg : String)
    (hen : h.enabled stage = some true)
    (hfail : parseOutcome iface packet = Except.error msg) :
    h.apply_clientside iface session_state packet stage =
      some (Except.error msg) := by
  unfold parseOutcome at hfail
  unfold Hooks.apply_clientside
  rw [hen]
  cases hds : iface.dsNew packet with
  | error e =>
    simp only [hds] at hfail ⊢
    injection hfail with hmsg
    rw [← hmsg]
  | ok ds =>
    simp only [hds] at hfail ⊢
    cases hp : iface.dsParse ds with
    | error e =>
      simp only [hp] at hfail ⊢
      injection hfail with hmsg
      rw [← hmsg]
    | ok parsed_packet => simp [hp] at hfail

/-- C1: the claim states that a `Hooks` value built from a discovery
directory containing no matching files (including a registry built with no
discovery path at all) has `enabled(stage) = false` for both stages
without failing or panicking.  The code instead aborts: `enabled` calls
`.expect("Nonexistent service")` on the registry lookup, and with no
master module loaded the registry is empty, so the lookup is `None` and
the process panics.  This theorem evaluates the model at exactly those
inputs: `enabled` is the abort value `none`, not `some false`, for both
stages, both with no discovery path and with a directory whose glob
yields no files. -/
theorem C1_enabled_aborts_on_empty_registry :
    ((Hooks.new (P := Unit) (fun _ => none) (fun _ => []) none).enabled
        Stage.Recv = none ∧
     (Hooks.new (P := Unit) (fun _ => none) (fun _ => []) none).enabled
        Stage.Deliver = none) ∧
    ((Hooks.new (P := Unit) (fun _ => none) (fun _ => [])
        (some "/modules")).enabled Stage.Recv = none ∧
     (Hooks.new (P := Unit) (fun _ => none) (fun _ => [])
        (some "/modules")).enabled Stage.Deliver = none) :=
  ⟨⟨rfl, rfl⟩, ⟨rfl, rfl⟩⟩

/-- C2: the claim states that an enabled `Hooks` value whose master module
resolved only a receive hook makes the Deliver stage a no-op
(`Ok (Pass, bytes)`).  The code instead aborts: `enabled` ignores the
stage, so the apply functions proceed past the bypass, parse the packet,
and then call `.unwrap()` on `hook_deliver`, which is `None`.  This
theorem evaluates the model on a master module exposing only `hook_recv`
and a parseable packet: the framework is enabled, and both apply
operations at the Deliver stage are the abort value `none` rather than
`some (Except.ok (Action.Pass, packet))`. -/
theorem C2_missing_deliver_hook_aborts :
    (Hooks.new recvOnlyLoad masterGlob (some "/modules")).enabled
        Stage.Deliver = some true ∧
    (Hooks.new recvOnlyLoad masterGlob (some "/modules")).apply_clientside
        idIface SessionState.mk [0, 1] Stage.Deliver = none ∧
    (Hooks.new recvOnlyLoad masterGlob (some "/modules")).apply_serverside
        idIface [0, 1] Stage.Deliver = none :=
  ⟨rfl, rfl, rfl⟩

/-- C3: the status-code-to-Action conversion is total: `1` maps to `Pass`,
`2` maps to `Lookup`, and every other integer (tested here at `0`, `3`,
`-1` and `255`, and proved for all values distinct from `1` and `2`) maps
to `Drop`. -/
theorem C3_action_from_cint_total :
    Action.ofCInt 1 = Action.Pass ∧
    Action.ofCInt 2 = Action.Lookup ∧
    Action.ofCInt 0 = Action.Drop ∧
    Action.ofCInt 3 = Action.Drop ∧
    Action.ofCInt (-1) = Action.Drop ∧
    Action.ofCInt 255 = Action.Drop ∧
    (∀ id : Int, id ≠ 1 → id ≠ 2 → Action.ofCInt id = Action.Drop) := by
  refine ⟨by decide, by decide, by decide, by decide, by decide, by decide,
    ?_⟩
  intro id h1 h2
  unfold Action.ofCInt Action.toCInt
  rw [if_neg h1, if_neg h2]

/-- C3 witness: the totality clause applied at the concrete input 255. -/
theorem C3_action_from_cint_total_witness :
    Action.ofCInt 255 = Action.Drop :=
  C3_action_from_cint_total.2.2.2.2.2.2 255 (by decide) (by decide)

/-- C4: whenever `enabled(stage)` returns `false`, both apply operations
return `Ok((Pass, packet))` with the output bytes equal byte-for-byte to
the input bytes.  The statement holds for every packet interface `iface`,
so the result does not depend on the parser or on any hook: nothing is
parsed and no hook is invoked. -/
theorem C4_disabled_apply_is_identity_pass {D P : Type}
    (iface : PacketIface D P) (h : Hooks P)
    (session_state : SessionState) (packet : List Nat) (stage : Stage)
    (hdis : h.enabled stage = some false) :
    h.apply_clientside iface session_state packet stage =
      some (Except.ok (Action.Pass, packet)) ∧
    h.apply_serverside iface packet stage =
      some (Except.ok (Action.Pass, packet)) := by
  constructor
  · unfold Hooks.apply_clientside
    rw [hdis]
  · unfold Hooks.apply_serverside
    rw [hdis]

/-- C4 witness: a registry with a master placeholder entry and no loaded
hooks is disabled, and both apply operations pass the packet through. -/
theorem C4_disabled_apply_is_identity_pass_witness :
    noHooksMaster.apply_clientside idIface SessionState.mk [7, 7]
        Stage.Recv = some (Except.ok (Action.Pass, [7, 7])) ∧
    noHooksMaster.apply_serverside idIface [7, 7] Stage.Recv =
      some (Except.ok (Action.Pass, [7, 7])) :=
  C4_disabled_apply_is_identity_pass idIface noHooksMaster SessionState.mk
    [7, 7] Stage.Recv rfl

/-- C5: when the framework is enabled and the byte buffer fails the parse
pipeline (either `DNSSector::new` or `parse`), both apply operations
return the error result, carrying the substituted error message and no
bytes.  The conclusion is independent of every hook stored in the
registry, so no foreign entry point is invoked. -/
theorem C5_parse_failure_returns_error {D P : Type}
    (iface : PacketIface D P) (h : Hooks P)
    (session_state : SessionState) (packet : List Nat) (stage : Stage)
    (msg : String) (hen : h.enabled stage = some true)
    (hfail : parseOutcome iface packet = Except.error msg) :
    h.apply_clientside iface session_state packet stage =
      some (Except.error msg) ∧
    h.apply_serverside iface packet stage = some (Except.error msg) := by
  have hcs :=
    apply_clientside_parse_error h iface session_state packet stage msg hen
      hfail
  exact ⟨hcs, (apply_sides_eq h iface session_state packet stage) ▸ hcs⟩

/-- C5 witness: an enabled registry together with a parser that rejects
the buffer yields the error result from both apply operations. -/
theorem C5_parse_failure_returns_error_witness :
    (Hooks.new recvOnlyLoad masterGlob (some "/modules")).apply_clientside
        failIface SessionState.mk [9] Stage.Recv =
      some (Except.error "Cannot parse packet") ∧
    (Hooks.new recvOnlyLoad masterGlob (some "/modules")).apply_serverside
        failIface [9] Stage.Recv =
      some (Except.error "Cannot parse packet") :=
  C5_parse_failure_returns_error failIface
    (Hooks.new recvOnlyLoad masterGlob (some "/modules")) SessionState.mk
    [9] Stage.Recv "Cannot parse packet" rfl rfl

/-- C6: for every registry, session state, packet and stage, the
client-side and server-side apply operations compute identical results:
the session-state parameter has no effect.  The equality covers the
success or abort outcome, the action and the output bytes at once. -/
theorem C6_clientside_serverside_identical {D P : Type}
    (iface : PacketIface D P) (h : Hooks P)
    (session_state : SessionState) (packet : List Nat) (stage : Stage) :
    h.apply_clientside iface session_state packet stage =
      h.apply_serverside iface packet stage :=
  apply_sides_eq h iface session_state packet stage

/-- C7: after construction the registry holds at most one entry, the
master entry keyed by the empty master id; moreover `load_library` on a
file whose stem differs from the reserved master name inserts nothing,
returning the registry unchanged. -/
theorem C7_registry_at_most_master {P : Type}
    (loadLib : String → Option (ServiceHooks P))
    (globFn : String → List (Except Unit LibPath)) (p : Option String) :
    ((Hooks.new (P := P) loadLib globFn p).services = [] ∨
      ∃ srv, (Hooks.new (P := P) loadLib globFn p).services =
        [([], srv)]) ∧
    (∀ (h h2 : Hooks P) (lp : LibPath) (stem : OsStr),
      lp.file_stem = some stem → ¬stem.isMaster →
      h.load_library loadLib lp = Except.ok h2 → h2 = h) := by
  constructor
  · rcases (registryShape_new loadLib globFn p).2 with hempty | ⟨srv, hone, _⟩
    · exact Or.inl hempty
    · exact Or.inr ⟨srv, hone⟩
  · intro h h2 lp stem hstem hm hok
    unfold Hooks.load_library at hok
    cases hts : stem.to_str with
    | none => simp [hstem, if_neg hm, hts] at hok
    | some s =>
      simp only [hstem, if_neg hm, hts, Except.ok.injEq] at hok
      exact hok.symm

/-- C7 witness: loading a discovered file with the non-master stem
`other` leaves the registry untouched. -/
theorem C7_registry_at_most_master_witness :
    emptyHooks = emptyHooks :=
  (C7_registry_at_most_master recvOnlyLoad masterGlob (some "/modules")).2
    emptyHooks emptyHooks
    { file_stem := some { to_str := some "other" },
      to_str := some "/modules/other.dylib" }
    { to_str := some "other" } rfl (by decide) rfl

/-- C8: a per-file error during discovery skips only that file and the
loop continues with the registry unchanged, for: a glob item that is
itself an error, a file with no stem, a non-master stem that is not valid
path text, a master file whose path is not valid path text, and a master
file whose dynamic library fails to load.  No such error aborts the whole
load. -/
theorem C8_per_file_error_skips_and_continues {P : Type}
    (loadLib : String → Option (ServiceHooks P)) (h : Hooks P) :
    (∀ (lp : LibPath) (rest : List (Except Unit LibPath)) (e : String),
      h.load_library loadLib lp = Except.error e →
      load_loop loadLib h (Except.ok lp :: rest) =
        load_loop loadLib h rest) ∧
    (∀ rest : List (Except Unit LibPath),
      load_loop loadLib h (Except.error () :: rest) =
        load_loop loadLib h rest) ∧
    (∀ lp : LibPath, lp.file_stem = none →
      h.load_library loadLib lp =
        Except.error "Missing stem from file name") ∧
    (∀ (lp : LibPath) (stem : OsStr), lp.file_stem = some stem →
      stem.to_str = none →
      h.load_library loadLib lp = Except.error "Unsupported path name") ∧
    (∀ (lp : LibPath) (stem : OsStr), lp.file_stem = some stem →
      stem.isMaster → lp.to_str = none →
      h.load_library loadLib lp = Except.error "Unsupported path name") ∧
    (∀ (lp : LibPath) (stem : OsStr) (path_str : String),
      lp.file_stem = some stem → stem.isMaster →
      lp.to_str = some path_str → loadLib path_str = none →
      h.load_library loadLib lp =
        Except.error "Unable to register the service") := by
  refine ⟨?_, ?_, ?_, ?_, ?_, ?_⟩
  · intro lp rest e herr
    simp only [load_loop, herr]
  · intro rest
    simp only [load_loop]
  · intro lp hstem
    simp [Hooks.load_library, hstem]
  · intro lp stem hstem hts
    have hm : ¬stem.isMaster := by
      unfold OsStr.isMaster
      rw [hts]
      exact fun hcontra => Option.noConfusion hcontra
    simp [Hooks.load_library, hstem, if_neg hm, hts]
  · intro lp stem hstem hm hpath
    simp [Hooks.load_library, hstem, if_pos hm, hpath]
  · intro lp stem path_str hstem hm hpath hload
    simp [Hooks.load_library, hstem, if_pos hm, hpath, Service.new, hload]

/-- C8 witness: a stem-less file produces a per-file error, and the loop
on that file followed by the empty tail equals the loop on the empty
tail. -/
theorem C8_per_file_error_skips_and_continues_witness :
    load_loop recvOnlyLoad emptyHooks
        [Except.ok { file_stem := none, to_str := some "/modules/..dylib" }] =
      load_loop recvOnlyLoad emptyHooks [] :=
  (C8_per_file_error_skips_and_continues recvOnlyLoad emptyHooks).1
    { file_stem := none, to_str := some "/modules/..dylib" } []
    "Missing stem from file name"
    ((C8_per_file_error_skips_and_continues recvOnlyLoad emptyHooks).2.2.1
      { file_stem := none, to_str := some "/modules/..dylib" } rfl)

/-- C9: in every constructed `Hooks` value, a master entry found in the
registry has loaded hooks (`service_hooks` is `Some`): the placeholder is
never inserted and a load failure inserts nothing.  Consequently,
whenever `enabled` returns normally it returns `true`. -/
theorem C9_master_entry_always_loaded {P : Type}
    (loadLib : String → Option (ServiceHooks P))
    (globFn : String → List (Except Unit LibPath)) (p : Option String) :
    (∀ srv : Service P,
      trieGet (Hooks.new (P := P) loadLib globFn p).services
          (Hooks.new (P := P) loadLib globFn p).master_service_id =
        some srv →
      srv.service_hooks.isSome = true) ∧
    (∀ (stage : Stage) (b : Bool),
      (Hooks.new (P := P) loadLib globFn p).enabled stage = some b →
      b = true) := by
  have hshape := registryShape_new loadLib globFn p
  constructor
  · intro srv hget
    rcases hshape.2 with hempty | ⟨srv0, hone, hloaded⟩
    · rw [hempty] at hget
      exact Option.noConfusion hget
    · rw [hone, hshape.1] at hget
      simp [trieGet] at hget
      subst hget
      exact hloaded
  · intro stage b henb
    unfold Hooks.enabled at henb
    rcases hshape.2 with hempty | ⟨srv0, hone, hloaded⟩
    · rw [hempty] at henb
      simp [trieGet] at henb
    · rw [hone, hshape.1] at henb
      simp [trieGet] at henb
      subst henb
      exact hloaded

/-- C9 witness: a discovery directory whose master module resolves only a
receive hook still registers a master entry with loaded hooks. -/
theorem C9_master_entry_always_loaded_witness :
    (Service.mk (some recvOnlyHooks)).service_hooks.isSome = true :=
  (C9_master_entry_always_loaded recvOnlyLoad masterGlob
    (some "/modules")).1 (Service.mk (some recvOnlyHooks)) rfl

/-- C10: the distinguished master service identifier is the empty byte
string: `Hooks::new` fixes it to the empty vector; the registry never
holds an entry under the bytes of the string `master`; `enabled` is
exactly the lookup of the empty key; and a successful `load_library` on a
master-stem file registers an entry under the empty key. -/
theorem C10_master_id_is_empty_byte_string {P : Type}
    (loadLib : String → Option (ServiceHooks P))
    (globFn : String → List (Except Unit LibPath)) (p : Option String) :
    (Hooks.new (P := P) loadLib globFn p).master_service_id = [] ∧
    trieGet (Hooks.new (P := P) loadLib globFn p).services
        (strBytes MASTER_SERVICE_LIBRARY_NAME) = none ∧
    (∀ stage : Stage,
      (Hooks.new (P := P) loadLib globFn p).enabled stage =
        Option.map (fun srv => srv.service_hooks.isSome)
          (trieGet (Hooks.new (P := P) loadLib globFn p).services [])) ∧
    (∀ (h h2 : Hooks P) (lp : LibPath) (stem : OsStr),
      h.master_service_id = [] → lp.file_stem = some stem →
      stem.isMaster → h.load_library loadLib lp = Except.ok h2 →
      (trieGet h2.services []).isSome = true) := by
  have hshape := registryShape_new loadLib globFn p
  refine ⟨hshape.1, ?_, ?_, ?_⟩
  · rcases hshape.2 with hempty | ⟨srv0, hone, _⟩
    · rw [hempty]
      rfl
    · rw [hone]
      unfold trieGet
      rw [if_neg (by decide)]
      rfl
  · intro stage
    unfold Hooks.enabled
    rw [hshape.1]
    cases trieGet (Hooks.new (P := P) loadLib globFn p).services [] with
    | none => rfl
    | some srv => rfl
  · intro h h2 lp stem hmid hstem hm hok
    unfold Hooks.load_library at hok
    cases hpath : lp.to_str with
    | none => simp [hstem, if_pos hm, hpath] at hok
    | some path_str =>
      cases hsn : Service.new loadLib (some path_str) with
      | error e => simp [hstem, if_pos hm, hpath, hsn] at hok
      | ok service =>
        simp only [hstem, if_pos hm, hpath, hsn, Except.ok.injEq] at hok
        rw [← hok]
        have hserv :
            ({ h with services :=
                trieInsert h.services h.master_service_id service } :
              Hooks P).services =
              trieInsert h.services [] service := by
          rw [hmid]
        rw [hserv, trieGet_insert_self h.services [] service]
        rfl

/-- C10 witness: loading `master.dylib` into the empty registry registers
the service under the empty byte-string key. -/
theorem C10_master_id_is_empty_byte_string_witness :
    (trieGet (Hooks.mk [([], Service.mk (some recvOnlyHooks))] []
        none).services []).isSome = true :=
  (C10_master_id_is_empty_byte_string recvOnlyLoad masterGlob
    (some "/modules")).2.2.2 emptyHooks
    (Hooks.mk [([], Service.mk (some recvOnlyHooks))] [] none) masterPath
    { to_str := some "master" } rfl rfl rfl rfl

end EdgeDNS
